import Mathlib

/-!
Shallow embedding of the `gradescope-tools` repository core
(`gradescope-api/src/question.rs`, `types.rs`, `submission_export/pdf.rs`,
`submission_export/mod.rs`, `unmatched.rs`, `submission.rs`,
`export_submissions.rs`), together with theorems settling the spec claims.

Rust strings are modelled as `List Char`; Rust `Result`/`Option` values are
modelled as `Option` (parse errors carry no information the claims need).
Machine integers (`u8`, `NonZeroU8`) are modelled as `Nat` with their ranges
enforced where the Rust code enforces them.
-/

namespace Gradescope

/-! ### `QuestionNumber` (question.rs lines 88-131, types.rs) -/

/-- The digit characters of an unsigned-integer literal: everything after an
optional leading `'+'` sign. -/
def digits_of (s : List Char) : List Char :=
  match s with
  | '+' :: rest => rest
  | _ => s

/-- Decimal value of a run of digit characters, most significant first. -/
def digit_val (ds : List Char) : Nat :=
  ds.foldl (fun acc c => acc * 10 + (c.toNat - 48)) 0

/-- Rust `u8::from_str`: an optional leading `'+'`, then one or more ASCII
digits, whose decimal value must fit in `u8` (that is, be at most 255).
Anything else is a parse error (`none`). -/
def parse_u8 (s : List Char) : Option Nat :=
  if digits_of s = [] then none
  else if (digits_of s).all (fun c => c.isDigit) then
    if digit_val (digits_of s) ≤ 255 then some (digit_val (digits_of s)) else none
  else none

/-- Rust `NonZeroU8::from_str`: a valid `u8` literal whose value is nonzero. -/
def nonzero_u8_from_str (s : List Char) : Option Nat :=
  match parse_u8 s with
  | some v => if v = 0 then none else some v
  | none => none

/-- The `try_collect` in `QuestionNumber::from_str`: every component must
parse as a `NonZeroU8`, else the whole parse fails. -/
def try_collect_nums : List (List Char) → Option (List Nat)
  | [] => some []
  | c :: cs =>
    match nonzero_u8_from_str c, try_collect_nums cs with
    | some v, some vs => some (v :: vs)
    | _, _ => none

/-- Model of `QuestionNumber::from_str` (question.rs lines 106-117): split on `'.'`
and parse every component as a `NonZeroU8`. A `QuestionNumber` is modelled
as its list of components (Rust `Vec<NonZeroU8>`). -/
def QuestionNumber.from_str (s : List Char) : Option (List Nat) :=
  try_collect_nums (s.splitOn '.')

/-- Decimal rendering of a `u8` component (Rust's `Display` for integers):
most-significant digit first, no sign, no leading zeros, `0` renders as "0".
Written out for the up-to-three-digit range of `u8`, the only domain on which
the Rust code ever formats a component. -/
def u8_display (n : Nat) : List Char :=
  if n < 10 then [Char.ofNat (48 + n)]
  else if n < 100 then [Char.ofNat (48 + n / 10), Char.ofNat (48 + n % 10)]
  else [Char.ofNat (48 + n / 100), Char.ofNat (48 + n / 10 % 10), Char.ofNat (48 + n % 10)]

/-- Model of `Display for QuestionNumber` (question.rs lines 127-131): the components
joined with `"."`. -/
def QuestionNumber.display (l : List Nat) : List Char :=
  List.intercalate ['.'] (l.map u8_display)

/-- The derived `Ord` on `QuestionNumber` = `Ord` on `Vec<NonZeroU8>`:
lexicographic comparison of components, with a strict prefix comparing
less than any extension. -/
def qnCmp : List Nat → List Nat → Ordering
  | [], [] => .eq
  | [], _ :: _ => .lt
  | _ :: _, [] => .gt
  | a :: as, b :: bs =>
    match compare a b with
    | .eq => qnCmp as bs
    | o => o

/-- The strict order `<` derived on `QuestionNumber`. -/
def qnLt (a b : List Nat) : Prop := qnCmp a b = .lt

instance : DecidablePred (fun p : List Nat × List Nat => qnLt p.1 p.2) := by
  unfold qnLt; infer_instance

instance (a b : List Nat) : Decidable (qnLt a b) := by
  unfold qnLt; infer_instance

/-! ### nom parser combinators, as used in `submission_export/pdf.rs`

A nom parser over `&str` is modelled as a function from the input to either
failure or the pair (remaining input, produced value). All parsers in the
grammar are `complete` (no streaming), so one error case suffices. -/

def NomP (α : Type) : Type := List Char → Option (List Char × α)

/-- Model of `nom::bytes::complete::tag`. -/
def tagP (target : List Char) : NomP Unit := fun inp =>
  if target.isPrefixOf inp then some (inp.drop target.length, ()) else none

/-- Model of `tag_ws` (pdf.rs lines 161-165): like `tag`, with whitespace stripped out
of the target string. -/
def tag_ws (target : List Char) : NomP Unit :=
  tagP (target.filter (fun c => !c.isWhitespace))

/-- Model of `nom::character::complete::char`. -/
def charP (c : Char) : NomP Char := fun inp =>
  match inp with
  | [] => none
  | d :: rest => if d = c then some (rest, c) else none

/-- Model of `nom::character::complete::digit1`: one or more ASCII digits. -/
def digit1 : NomP (List Char) := fun inp =>
  if inp.takeWhile (fun c => c.isDigit) = [] then none
  else some (inp.dropWhile (fun c => c.isDigit), inp.takeWhile (fun c => c.isDigit))

/-- Model of `nom::character::complete::multispace0`: zero or more of space, tab,
carriage return, line feed. -/
def multispace0 : NomP Unit := fun inp =>
  some (inp.dropWhile (fun c => c = ' ' || c = '\t' || c = '\r' || c = '\n'), ())

/-- Model of `nom::combinator::eof`. -/
def eofP : NomP Unit := fun inp =>
  match inp with
  | [] => some ([], ())
  | _ :: _ => none

/-- Sequencing of parsers (nom's `tuple`/`preceded`/`delimited` building
block). -/
def andThen {α β : Type} (p : NomP α) (q : α → NomP β) : NomP β := fun inp =>
  match p inp with
  | none => none
  | some (rest, a) => q a rest

/-- Discard a parser's output (nom's `.map(|_| ())`). -/
def voidP {α : Type} (p : NomP α) : NomP Unit := fun inp =>
  match p inp with
  | none => none
  | some (rest, _) => some (rest, ())

/-- Model of `nom::branch::alt` of two parsers. -/
def altP {α : Type} (p q : NomP α) : NomP α := fun inp =>
  match p inp with
  | some r => some r
  | none => q inp

/-- Model of `skip_thru` (pdf.rs lines 151-159), i.e. `many_till(anychar, comb)`: at
each position try `comb`; on its failure consume one character and retry;
fail at end of input. -/
def skip_thru_run {α : Type} (comb : NomP α) : List Char → Option (List Char × Unit)
  | [] =>
    match comb [] with
    | some (rest, _) => some (rest, ())
    | none => none
  | c :: cs =>
    match comb (c :: cs) with
    | some (rest, _) => some (rest, ())
    | none => skip_thru_run comb cs

def skip_thru {α : Type} (comb : NomP α) : NomP Unit := fun inp =>
  skip_thru_run comb inp

/-- Model of `nom::multi::many0`: apply `p` until it fails. nom raises an error when an
iteration succeeds without consuming input; the length check models that, and
the fuel (always at least the input length plus one) only makes the recursion
structural. -/
def many0_run {α : Type} (p : NomP α) : Nat → List Char → Option (List Char × List α)
  | 0, _ => none
  | fuel + 1, inp =>
    match p inp with
    | none => some (inp, [])
    | some (rest, a) =>
      if rest.length < inp.length then
        match many0_run p fuel rest with
        | some (rest2, as) => some (rest2, a :: as)
        | none => none
      else none

def many0 {α : Type} (p : NomP α) : NomP (List α) := fun inp =>
  many0_run p (inp.length + 1) inp

/-- The iteration shared by `nom::multi::separated_list0/1` once a first
element has been read: parse a separator and then an element; if either
fails, stop, backtracking over the separator; error when an iteration
consumes nothing (nom's infinite-loop guard). -/
def sep_list_run {α : Type} (sep : NomP Unit) (elem : NomP α) :
    Nat → List Char → Option (List Char × List α)
  | 0, _ => none
  | fuel + 1, inp =>
    match sep inp with
    | none => some (inp, [])
    | some (rest1, _) =>
      match elem rest1 with
      | none => some (inp, [])
      | some (rest2, a) =>
        if rest2.length < inp.length then
          match sep_list_run sep elem fuel rest2 with
          | some (rest3, as) => some (rest3, a :: as)
          | none => none
        else none

/-- Model of `nom::multi::separated_list0`. -/
def separated_list0 {α : Type} (sep : NomP Unit) (elem : NomP α) : NomP (List α) := fun inp =>
  match elem inp with
  | none => some (inp, [])
  | some (rest, a) =>
    match sep_list_run sep elem (rest.length + 1) rest with
    | some (rest2, as) => some (rest2, a :: as)
    | none => none

/-- Model of `nom::multi::separated_list1`. -/
def separated_list1 {α : Type} (sep : NomP Unit) (elem : NomP α) : NomP (List α) := fun inp =>
  match elem inp with
  | none => none
  | some (rest, a) =>
    match sep_list_run sep elem (rest.length + 1) rest with
    | some (rest2, as) => some (rest2, a :: as)
    | none => none

/-! ### The question-number grammar (pdf.rs lines 101-165) -/

/-- Model of `question_num` (pdf.rs lines 145-149): `'.'`-separated digit runs, joined
with `"."` and handed to `QuestionNumber::from_str`; `map_res` turns a failed
conversion (component zero or over 255) into a parse failure. -/
def question_num : NomP (List Nat) := fun inp =>
  match separated_list1 (voidP (charP '.')) digit1 inp with
  | none => none
  | some (rest, parts) =>
    match QuestionNumber.from_str (List.intercalate ['.'] parts) with
    | some qn => some (rest, qn)
    | none => none

/-- The `comma` separator of `question_num_list`. -/
def comma : NomP Unit :=
  andThen multispace0 (fun _ => andThen (charP ',') (fun _ => multispace0))

/-- The `comma_and` separator of `question_num_list`. -/
def comma_and : NomP Unit :=
  andThen multispace0 (fun _ => andThen (charP ',') (fun _ =>
    andThen multispace0 (fun _ => andThen (tag_ws "and".toList) (fun _ => multispace0))))

/-- The `and` separator of `question_num_list`. -/
def and_sep : NomP Unit :=
  andThen multispace0 (fun _ => andThen (tag_ws "and".toList) (fun _ => multispace0))

/-- Model of `question_num_list` (pdf.rs lines 130-143). -/
def question_num_list : NomP (List (List Nat)) :=
  separated_list0 (altP comma_and (altP comma and_sep)) question_num

/-- The page label alternatives of `skip_thru_page_label` (pdf.rs 120-128). -/
def page_label : NomP Unit :=
  altP (tag_ws "Questions assigned to the following page:".toList)
    (altP (tag_ws "Question assigned to the following page:".toList)
      (tag_ws "No questions assigned to the following page.".toList))

def skip_thru_page_label : NomP Unit := skip_thru page_label

/-- Model of `page` (pdf.rs lines 116-118). -/
def page : NomP (List (List Nat)) :=
  andThen skip_thru_page_label (fun _ => question_num_list)

/-- Model of `questions` (pdf.rs lines 110-114). -/
def questions : NomP (List (List Nat)) := fun inp =>
  match many0 page inp with
  | none => none
  | some (rest, qss) => some (rest, qss.flatten)

/-- Model of `pdf_text` (pdf.rs lines 101-108): `delimited(skip_thru(tag_ws("Total
Points")), questions, eof)`. -/
def pdf_text : NomP (List (List Nat)) :=
  andThen (skip_thru (tag_ws "Total Points".toList)) (fun _ =>
    andThen questions (fun qs =>
      andThen eofP (fun _ => fun inp => some (inp, qs))))

/-! ### `SubmissionPdf` and the unmatched diff engine (pdf.rs lines 22-99) -/

/-- Model of `Question` (question.rs lines 64-78): a title and a question number. -/
structure Question where
  title : String
  number : List Nat
deriving DecidableEq

/-- Model of `UnmatchedQuestion` (unmatched.rs lines 13-27): built by
`SubmissionPdf::unmatched_questions` from a cloned outline `Question`. -/
structure UnmatchedQuestion where
  question : Question
deriving DecidableEq

/-- Model of `UnmatchedSubmission` (unmatched.rs lines 29-50). -/
structure UnmatchedSubmission where
  id : String
  unmatched_questions : List UnmatchedQuestion
deriving DecidableEq

/-- Model of `SubmissionPdf` (pdf.rs lines 22-25): the submission id (the filename
stem) and the whitespace-stripped extracted text. -/
structure SubmissionPdf where
  submission_id : String
  text : List Char

/-- The whitespace removal `SubmissionPdf::new` applies to the extracted
text (pdf.rs line 40: `text.retain(|c| !c.is_whitespace())`). -/
def strip_ws (s : List Char) : List Char :=
  s.filter (fun c => !c.isWhitespace)

/-- Model of `SubmissionPdf::matched_question_numbers` (pdf.rs lines 93-98). -/
def SubmissionPdf.matched_question_numbers (pdf : SubmissionPdf) : Option (List (List Nat)) :=
  match pdf_text pdf.text with
  | some (_, question_nums) => some question_nums
  | none => none

/-- Model of `Vec::sort_unstable` by the derived `Ord` on question numbers, modelled
as insertion sort by the matching non-strict order: the code relies only on
the result being a sorted permutation. -/
def sortQN (l : List (List Nat)) : List (List Nat) :=
  List.insertionSort (fun a b => qnCmp a b ≠ .gt) l

/-- The loop of `Vec::dedup` after a first kept element `prev`. -/
def dedup_run (prev : List Nat) : List (List Nat) → List (List Nat)
  | [] => []
  | b :: rest => if b = prev then dedup_run prev rest else b :: dedup_run b rest

/-- Model of `Vec::dedup`: remove consecutive repeats, keeping the first of each run. -/
def dedupQN : List (List Nat) → List (List Nat)
  | [] => []
  | a :: rest => a :: dedup_run a rest

/-- Model of `SubmissionPdf::unmatched_questions` (pdf.rs lines 62-76): sort and dedup
the matched numbers, then keep the outline questions whose number the binary
search does not find. `Vec::binary_search` on a sorted, deduplicated vector
succeeds exactly on the members, so it is modelled as list membership. -/
def SubmissionPdf.unmatched_questions (pdf : SubmissionPdf) (all_questions : List Question) :
    Option (List UnmatchedQuestion) :=
  match pdf.matched_question_numbers with
  | none => none
  | some ms =>
    some ((all_questions.filter
        (fun q => !((dedupQN (sortQN ms)).contains q.number))).map UnmatchedQuestion.mk)

/-- The diff engine as the spec words it, for comparison with
`SubmissionPdf::unmatched_questions`: the outline questions whose number is
not in the matched set, in outline order. -/
def spec_unmatched_diff (all_questions : List Question) (matched : List (List Nat)) :
    List Question :=
  all_questions.filter (fun q => !(matched.contains q.number))

/-- Model of `SubmissionPdf::as_unmatched` (pdf.rs lines 48-56). -/
def SubmissionPdf.as_unmatched (pdf : SubmissionPdf) (all_questions : List Question) :
    Option (Option UnmatchedSubmission) :=
  match pdf.unmatched_questions all_questions with
  | none => none
  | some unmatched =>
    some (if !unmatched.isEmpty
      then some (UnmatchedSubmission.mk pdf.submission_id unmatched)
      else none)

/-! ### Archive extractor (submission_export/mod.rs lines 40-122)

One addressable zip entry is modelled by the results of its two fallible
operations: decoding its filename and reading its data. Container-level
`next_with_entry`/`skip` failures abort the whole stream and are outside
these claims, so `submission_pdf_bufs` is modelled on the healthy-container
path, where the loop visits every entry in order. -/

structure ZipEntry where
  filename : Except String (List Char)
  data : Except String (List Nat)

/-- Model of `SubmissionExport::entry_pdf_filename` (mod.rs lines 106-122): `none`
skips the entry (non-PDF member); a decode failure is an item error. -/
def entry_pdf_filename (e : ZipEntry) : Option (Except String (List Char)) :=
  match e.filename with
  | .ok filename =>
    if ".pdf".toList.isSuffixOf filename then some (.ok filename) else none
  | .error err => some (.error err)

/-- Model of `SubmissionExport::try_read_pdf_buf` (mod.rs lines 80-99). -/
def try_read_pdf_buf (e : ZipEntry) : Option (Except String (List Char × List Nat)) :=
  match entry_pdf_filename e with
  | none => none
  | some (.error err) => some (.error err)
  | some (.ok filename) =>
    match e.data with
    | .error err => some (.error err)
    | .ok buf => some (.ok (filename, buf))

/-- The items `SubmissionExport::submission_pdf_bufs` (mod.rs lines 40-78)
feeds into its channel while the container stays readable. -/
def submission_pdf_bufs (entries : List ZipEntry) :
    List (Except String (List Char × List Nat)) :=
  entries.filterMap try_read_pdf_buf

/-! ### Roster join (submission.rs lines 132-141, unmatched.rs lines 52-69) -/

structure StudentSubmitter where
  name : String
  email : String
deriving DecidableEq

/-- Model of `SubmissionToStudentMap` (submission.rs): a shared hash map from
submission id to the submission's student submitters, modelled by its lookup
function `HashMap::get`. -/
def SubmissionToStudentMap : Type := String → Option (List StudentSubmitter)

/-- Model of `SubmissionToStudentMap::students` (submission.rs lines 139-141). -/
def SubmissionToStudentMap.students (m : SubmissionToStudentMap) (submission_id : String) :
    Option (List StudentSubmitter) :=
  m submission_id

/-- Model of `NonmatchingSubmitter` (unmatched.rs lines 112-133). -/
structure NonmatchingSubmitter where
  student : StudentSubmitter
  submission : UnmatchedSubmission
deriving DecidableEq

/-- Model of `UnmatchedSubmission::submitters` (unmatched.rs lines 52-69): a roster
miss yields the single error item; a hit yields one success per student. -/
def UnmatchedSubmission.submitters (u : UnmatchedSubmission) (m : SubmissionToStudentMap) :
    List (Except String NonmatchingSubmitter) :=
  match m.students u.id with
  | some students => students.map (fun s => .ok (NonmatchingSubmitter.mk s u))
  | none => [.error "could not find students for submission"]

end Gradescope

namespace ExportSubmissions

/-! ### Structured page classifier (export_submissions.rs lines 294-377)

A PDF page is modelled by the parts of it the classifier inspects: the fonts
of its resource dictionary, the xobject references of its resource
dictionary, and its text show operator strings in content order. The
`resources()` accessor is modelled as total; its failure mode (a malformed
page tree) is orthogonal to the classification logic under test. -/

structure Page where
  fonts : List String
  xobjects : List Nat
  texts : List (List Char)

/-- Model of `SubmissionPdf` (export_submissions.rs): the classifier state the claims
need, namely the object reference of the fixed-size Gradescope logo image. -/
structure SubmissionPdf where
  gradescope_logo_ref : Nat

/-- Model of `PageKind` (export_submissions.rs line 415-418). -/
inductive PageKind where
  | studentSubmission
  | questionSummary (n : List Nat)
deriving DecidableEq

/-- Model of `SubmissionPdf::has_no_fonts` (export_submissions.rs lines 320-323). -/
def SubmissionPdf.has_no_fonts (_pdf : SubmissionPdf) (page : Page) : Bool :=
  page.fonts.isEmpty

/-- Model of `SubmissionPdf::has_gradescope_logo` (export_submissions.rs 325-332). -/
def SubmissionPdf.has_gradescope_logo (pdf : SubmissionPdf) (page : Page) : Bool :=
  page.xobjects.contains pdf.gradescope_logo_ref

/-- Model of `SubmissionPdf::is_student_submission_page` (export_submissions.rs lines
305-318): no fonts, or no Gradescope logo. -/
def SubmissionPdf.is_student_submission_page (pdf : SubmissionPdf) (page : Page) : Bool :=
  pdf.has_no_fonts page || !(pdf.has_gradescope_logo page)

/-- Both-ends whitespace trim (Rust `str::trim`). -/
def trimChars (s : List Char) : List Char :=
  ((s.dropWhile (fun c => c.isWhitespace)).reverse.dropWhile (fun c => c.isWhitespace)).reverse

/-- Model of `SubmissionPdf::get_number_of_question_summary` (export_submissions.rs
lines 351-363): the page's first text token, trimmed, parsed as a
`QuestionNumber`. -/
def SubmissionPdf.get_number_of_question_summary (_pdf : SubmissionPdf) (page : Page) :
    Except String (List Nat) :=
  match page.texts with
  | [] => .error "No text on question summary page"
  | first_text :: _ =>
    match Gradescope.QuestionNumber.from_str (trimChars first_text) with
    | some question_number => .ok question_number
    | none => .error "could not parse question number"

/-- Model of `SubmissionPdf::post_assignment_summary_page_kind` (export_submissions.rs
lines 293-303). -/
def SubmissionPdf.post_assignment_summary_page_kind (pdf : SubmissionPdf) (page : Page) :
    Except String PageKind :=
  if pdf.is_student_submission_page page then .ok .studentSubmission
  else
    match pdf.get_number_of_question_summary page with
    | .ok n => .ok (.questionSummary n)
    | .error err => .error err

end ExportSubmissions

/-! ## Theorems -/

namespace Gradescope

set_option maxRecDepth 4000 in
/-- Round trip of a single `u8` component through display and parse, checked
over the whole `u8` range. -/
theorem u8_roundtrip : ∀ v : Nat, v < 256 → 1 ≤ v →
    nonzero_u8_from_str (u8_display v) = some v := by decide

set_option maxRecDepth 4000 in
/-- A displayed `u8` component never contains a dot. -/
theorem u8_display_no_dot : ∀ v : Nat, v < 256 → '.' ∉ u8_display v := by decide

theorem try_collect_nums_display (l : List Nat) (h : ∀ v ∈ l, 1 ≤ v ∧ v ≤ 255) :
    try_collect_nums (l.map u8_display) = some l := by
  induction l with
  | nil => rfl
  | cons a as ih =>
    obtain ⟨h1, h2⟩ := h a (List.mem_cons_self a as)
    have ha : nonzero_u8_from_str (u8_display a) = some a := u8_roundtrip a (by omega) h1
    have hrest := ih (fun v hv => h v (List.mem_cons_of_mem a hv))
    simp only [List.map_cons, try_collect_nums, ha, hrest]

theorem try_collect_nums_isSome (cs : List (List Char)) :
    (try_collect_nums cs).isSome ↔ ∀ c ∈ cs, (nonzero_u8_from_str c).isSome := by
  induction cs with
  | nil => simp [try_collect_nums]
  | cons c cs ih =>
    simp only [try_collect_nums, List.forall_mem_cons]
    cases h1 : nonzero_u8_from_str c <;> cases h2 : try_collect_nums cs <;>
      simp_all

theorem parse_u8_le (s : List Char) (v : Nat) (h : parse_u8 s = some v) : v ≤ 255 := by
  unfold parse_u8 at h
  split at h
  · exact absurd h (by simp)
  · split at h
    · split at h
      · rw [Option.some.injEq] at h
        omega
      · exact absurd h (by simp)
    · exact absurd h (by simp)

theorem nonzero_u8_from_str_range (c : List Char) (v : Nat)
    (h : nonzero_u8_from_str c = some v) : 1 ≤ v ∧ v ≤ 255 := by
  unfold nonzero_u8_from_str at h
  split at h
  · rename_i w hp
    split at h
    · exact absurd h (by simp)
    · rename_i hw
      rw [Option.some.injEq] at h
      subst h
      exact ⟨by omega, parse_u8_le c _ hp⟩
  · exact absurd h (by simp)

theorem try_collect_nums_range (cs : List (List Char)) (l : List Nat)
    (h : try_collect_nums cs = some l) : ∀ v ∈ l, 1 ≤ v ∧ v ≤ 255 := by
  induction cs generalizing l with
  | nil =>
    unfold try_collect_nums at h
    rw [Option.some.injEq] at h
    subst h
    simp
  | cons c cs ih =>
    unfold try_collect_nums at h
    cases h1 : nonzero_u8_from_str c <;> rw [h1] at h
    · exact absurd h (by simp)
    · cases h2 : try_collect_nums cs <;> rw [h2] at h
      · exact absurd h (by simp)
      · rw [Option.some.injEq] at h
        subst h
        intro v hv
        rcases List.mem_cons.mp hv with rfl | hv
        · exact nonzero_u8_from_str_range c v h1
        · exact ih _ h2 v hv

end Gradescope

namespace Gradescope

theorem qnCmp_cons (x y : Nat) (xs ys : List Nat) :
    qnCmp (x :: xs) (y :: ys) =
      match compare x y with
      | .eq => qnCmp xs ys
      | o => o := rfl

theorem qnLt_iff_lex (a : List Nat) : ∀ b, qnLt a b ↔ List.Lex (· < ·) a b := by
  induction a with
  | nil =>
    intro b
    cases b with
    | nil =>
      constructor
      · intro h; exact absurd h (by simp [qnLt, qnCmp])
      · intro h; cases h
    | cons y ys =>
      constructor
      · intro _; exact List.Lex.nil
      · intro _; rfl
  | cons x xs ih =>
    intro b
    cases b with
    | nil =>
      constructor
      · intro h; exact absurd h (by simp [qnLt, qnCmp])
      · intro h; cases h
    | cons y ys =>
      unfold qnLt
      rw [qnCmp_cons]
      rcases Nat.lt_trichotomy x y with hxy | hxy | hxy
      · rw [Nat.compare_eq_lt.2 hxy]
        constructor
        · intro _; exact List.Lex.rel hxy
        · intro _; rfl
      · subst hxy
        rw [Nat.compare_eq_eq.2 rfl]
        constructor
        · intro h; exact List.Lex.cons ((ih ys).1 h)
        · intro h
          cases h with
          | cons h2 => exact (ih ys).2 h2
          | rel h2 => exact absurd h2 (lt_irrefl x)
      · rw [Nat.compare_eq_gt.2 hxy]
        constructor
        · intro h; exact absurd h (by simp)
        · intro h
          cases h with
          | cons h2 => exact absurd rfl (Nat.ne_of_gt hxy)
          | rel h2 => exact absurd h2 (Nat.lt_asymm hxy)

theorem qnCmp_eq_iff (a : List Nat) : ∀ b, qnCmp a b = .eq ↔ a = b := by
  induction a with
  | nil =>
    intro b
    cases b <;> simp [qnCmp]
  | cons x xs ih =>
    intro b
    cases b with
    | nil => simp [qnCmp]
    | cons y ys =>
      rw [qnCmp_cons]
      rcases Nat.lt_trichotomy x y with hxy | hxy | hxy
      · rw [Nat.compare_eq_lt.2 hxy]
        simp [Nat.ne_of_lt hxy]
      · subst hxy
        rw [Nat.compare_eq_eq.2 rfl]
        simp [ih ys]
      · rw [Nat.compare_eq_gt.2 hxy]
        simp [Nat.ne_of_gt hxy]

/-- C4: the derived total order on `QuestionNumber` is the lexicographic
order on component sequences, a strict prefix ordering before any extension
(`List.Lex (· < ·)` is exactly that order); `qnCmp` answers `.eq` exactly on
equal sequences, so the comparison is total; and the concrete chains
`[1,2] < [1,3] < [2] < [2,1]` and `[1] < [1,1]` hold. -/
theorem c4_question_number_order :
    (∀ a b : List Nat, qnLt a b ↔ List.Lex (· < ·) a b)
    ∧ (∀ a b : List Nat, qnCmp a b = .eq ↔ a = b)
    ∧ qnLt [1, 2] [1, 3] ∧ qnLt [1, 3] [2] ∧ qnLt [2] [2, 1] ∧ qnLt [1] [1, 1] :=
  ⟨fun a b => qnLt_iff_lex a b, fun a b => qnCmp_eq_iff a b,
    by decide, by decide, by decide, by decide⟩

/-- C3 counterexample: the empty `QuestionNumber` (`Vec::new()` is a legal
`Vec<NonZeroU8>`) displays as the empty string, which does not parse back. -/
theorem c3_counterexample :
    QuestionNumber.from_str (QuestionNumber.display []) ≠ some [] := by decide

/-- C3 (amended): for every `QuestionNumber` with at least one component
(components lie in `1..=255`, the range of `NonZeroU8`), formatting to the
`"."`-joined display string and parsing back with `QuestionNumber::from_str`
returns the original value. -/
theorem c3_display_roundtrip (l : List Nat) (hne : l ≠ [])
    (h : ∀ v ∈ l, 1 ≤ v ∧ v ≤ 255) :
    QuestionNumber.from_str (QuestionNumber.display l) = some l := by
  unfold QuestionNumber.from_str QuestionNumber.display
  rw [List.splitOn_intercalate (l.map u8_display) '.' ?hno ?hne2]
  case hno =>
    intro c hc
    obtain ⟨v, hv, rfl⟩ := List.mem_map.mp hc
    exact u8_display_no_dot v (by have := (h v hv).2; omega)
  case hne2 => simpa using hne
  exact try_collect_nums_display l h

theorem c3_witness :
    QuestionNumber.from_str (QuestionNumber.display [3, 2]) = some [3, 2] :=
  c3_display_roundtrip [3, 2] (by decide) (by decide)

/-- C10: `QuestionNumber::from_str` succeeds exactly when every
`"."`-separated component parses as a nonzero `u8`; the empty string, a `"0"`
component and an over-255 component are all rejected; and every component of
a successfully parsed `QuestionNumber` lies in `1..=255`. -/
theorem c10_from_str_components :
    (∀ s : List Char, (QuestionNumber.from_str s).isSome ↔
      ∀ c ∈ s.splitOn '.', (nonzero_u8_from_str c).isSome)
    ∧ QuestionNumber.from_str [] = none
    ∧ QuestionNumber.from_str ['0'] = none
    ∧ QuestionNumber.from_str ('2' :: '5' :: '6' :: []) = none
    ∧ (∀ s l, QuestionNumber.from_str s = some l → ∀ v ∈ l, 1 ≤ v ∧ v ≤ 255) :=
  ⟨fun s => try_collect_nums_isSome (s.splitOn '.'), by decide, by decide, by decide,
    fun s l h => try_collect_nums_range (s.splitOn '.') l h⟩

theorem c10_witness : 1 ≤ 3 ∧ 3 ≤ 255 :=
  c10_from_str_components.2.2.2.2 ('3' :: '.' :: '2' :: []) [3, 2] (by decide) 3 (by decide)

end Gradescope

namespace Gradescope

/-- C2 counterexample: on the spec's example input taken literally — with
the trailing characters after the final page label — the grammar FAILS,
because `many0(page)` stops at the trailing text, which `eof` then rejects. -/
theorem c2_counterexample :
    pdf_text (strip_ws ("...Total Points...Questions assigned to the following page:" ++
      "1,2,and3...No questions assigned to the following page....").toList) = none := by
  decide

/-- C2 (amended): on the whitespace-stripped example input ending exactly at
the final "No questions assigned to the following page." label (the grammar
accepts no trailing input whatsoever), the parse succeeds, consumes the whole
input, and yields exactly the question numbers `[[1],[2],[3]]`, the
"No questions" section contributing zero numbers. -/
theorem c2_grammar_example :
    pdf_text (strip_ws ("...Total Points...Questions assigned to the following page:" ++
      "1,2,and3...No questions assigned to the following page.").toList)
      = some ([], [[1], [2], [3]]) := by
  decide

/-- Failure of `skip_thru(tag(t))` whenever `t` occurs nowhere in the input. -/
theorem skip_thru_tagP_none (t : List Char) (inp : List Char) (h : ¬ t <:+: inp) :
    skip_thru (tagP t) inp = none := by
  induction inp with
  | nil =>
    have hnpre : ¬ (t.isPrefixOf ([] : List Char) = true) := fun hpre =>
      h (List.IsPrefix.isInfix ( List.isPrefixOf_iff_prefix.1 hpre))
    have ht : tagP t [] = none := by unfold tagP; rw [if_neg hnpre]
    simp [skip_thru, skip_thru_run, ht]
  | cons c cs ih =>
    have hnpre : ¬ (t.isPrefixOf (c :: cs) = true) := fun hpre =>
      h (List.IsPrefix.isInfix ( List.isPrefixOf_iff_prefix.1 hpre))
    have ht : tagP t (c :: cs) = none := by unfold tagP; rw [if_neg hnpre]
    have htail : ¬ t <:+: cs := fun hinf => h (List.infix_cons hinf)
    show skip_thru_run (tagP t) (c :: cs) = none
    rw [skip_thru_run, ht]
    exact ih htail

/-- C6: on any normalized (whitespace-stripped) text that does not contain
the anchor `"TotalPoints"` (the "Total Points" marker after whitespace
stripping), `SubmissionPdf::matched_question_numbers` returns an error, never
an empty or truncated list: the failure propagates to the caller. -/
theorem c6_missing_anchor (pdf : SubmissionPdf)
    (h : ¬ ("TotalPoints".toList <:+: pdf.text)) :
    pdf.matched_question_numbers = none := by
  have htag : tag_ws "Total Points".toList = tagP "TotalPoints".toList := by
    unfold tag_ws
    exact congrArg tagP (by decide)
  have hskip : skip_thru (tag_ws "Total Points".toList) pdf.text = none := by
    rw [htag]
    exact skip_thru_tagP_none _ _ h
  simp only [SubmissionPdf.matched_question_numbers, pdf_text, andThen, hskip]

theorem c6_witness :
    (SubmissionPdf.mk "123" (strip_ws "hello world, no anchor here".toList)).matched_question_numbers
      = none :=
  c6_missing_anchor _ (by decide)

end Gradescope

namespace Gradescope

theorem contains_eq_true_iff {α : Type} [BEq α] [LawfulBEq α] (l : List α) (a : α) :
    l.contains a = true ↔ a ∈ l :=
  List.elem_iff

theorem mem_dedup_run (l : List (List Nat)) :
    ∀ (p x : List Nat), (x ∈ p :: dedup_run p l ↔ x ∈ p :: l) := by
  induction l with
  | nil => intro p x; simp [dedup_run]
  | cons b rest ih =>
    intro p x
    unfold dedup_run
    by_cases hb : b = p
    · rw [if_pos hb]
      subst hb
      rw [ih b x]
      simp only [List.mem_cons]
      tauto
    · rw [if_neg hb]
      have h2 := ih b x
      simp only [List.mem_cons] at h2 ⊢
      tauto

theorem mem_dedupQN (l : List (List Nat)) (x : List Nat) : x ∈ dedupQN l ↔ x ∈ l := by
  cases l with
  | nil => simp [dedupQN]
  | cons a rest => exact mem_dedup_run rest a x

theorem mem_sortQN (l : List (List Nat)) (x : List Nat) : x ∈ sortQN l ↔ x ∈ l :=
  List.mem_insertionSort _

theorem mem_dedup_sort (ms : List (List Nat)) (x : List Nat) :
    x ∈ dedupQN (sortQN ms) ↔ x ∈ ms := by
  rw [mem_dedupQN, mem_sortQN]

/-- Sorting and deduplicating the matched list leaves the membership test,
hence the filter, unchanged. -/
theorem unmatched_questions_eq (pdf : SubmissionPdf) (all_questions : List Question)
    (matched : List (List Nat)) (hm : pdf.matched_question_numbers = some matched) :
    pdf.unmatched_questions all_questions =
      some ((spec_unmatched_diff all_questions matched).map UnmatchedQuestion.mk) := by
  unfold SubmissionPdf.unmatched_questions spec_unmatched_diff
  simp only [hm]
  congr 2
  apply List.filter_congr
  intro q _
  congr 1
  cases hc : matched.contains q.number
  · cases hd : (dedupQN (sortQN matched)).contains q.number
    · rfl
    · have := (mem_dedup_sort matched q.number).1 ((contains_eq_true_iff _ _).1 hd)
      rw [(contains_eq_true_iff _ _).2 this] at hc
      cases hc
  · cases hd : (dedupQN (sortQN matched)).contains q.number
    · have := (mem_dedup_sort matched q.number).2 ((contains_eq_true_iff _ _).1 hc)
      rw [(contains_eq_true_iff _ _).2 this] at hd
      cases hd
    · rfl

theorem spec_diff_length (all_questions : List Question) (matched : List (List Nat))
    (hnd : (all_questions.map Question.number).Nodup)
    (hsub : ∀ n ∈ matched, n ∈ all_questions.map Question.number) :
    (spec_unmatched_diff all_questions matched).length
      = all_questions.length - matched.toFinset.card := by
  have hfm : (spec_unmatched_diff all_questions matched).length
      = ((all_questions.map Question.number).filter
          (fun n => !(matched.contains n))).length := by
    rw [List.filter_map, List.length_map]
    rfl
  have hsplit := List.length_eq_length_filter_add
    (l := all_questions.map Question.number) (fun n => matched.contains n)
  have hcard : ((all_questions.map Question.number).filter
      (fun n => matched.contains n)).length = matched.toFinset.card := by
    have hnodupf : ((all_questions.map Question.number).filter
        (fun n => matched.contains n)).Nodup := hnd.filter _
    rw [← List.toFinset_card_of_nodup hnodupf]
    congr 1
    rw [List.toFinset_filter]
    ext x
    simp only [Finset.mem_filter, List.mem_toFinset, contains_eq_true_iff]
    constructor
    · rintro ⟨_, hx⟩
      exact hx
    · intro hx
      exact ⟨hsub x hx, hx⟩
  rw [hfm]
  rw [← hcard]
  have hlen : (all_questions.map Question.number).length = all_questions.length :=
    List.length_map _ _
  omega

/-- C1: whenever the PDF's matched numbers parse as the list `matched` whose
underlying set is a subset of the outline's pairwise-distinct numbers,
`SubmissionPdf::unmatched_questions` returns exactly the outline questions
whose number is not in `matched` — `N − |S|` of the `N` outline questions,
none with a matched number, as a filter of the outline, hence in outline
order (a sublist of the outline). -/
theorem c1_unmatched_diff (pdf : SubmissionPdf) (all_questions : List Question)
    (matched : List (List Nat))
    (hm : pdf.matched_question_numbers = some matched)
    (hnd : (all_questions.map Question.number).Nodup)
    (hsub : ∀ n ∈ matched, n ∈ all_questions.map Question.number) :
    pdf.unmatched_questions all_questions
        = some ((spec_unmatched_diff all_questions matched).map UnmatchedQuestion.mk)
    ∧ (spec_unmatched_diff all_questions matched).length
        = all_questions.length - matched.toFinset.card
    ∧ (∀ q ∈ spec_unmatched_diff all_questions matched, q.number ∉ matched)
    ∧ (spec_unmatched_diff all_questions matched).Sublist all_questions := by
  refine ⟨unmatched_questions_eq pdf all_questions matched hm,
    spec_diff_length all_questions matched hnd hsub, ?_, List.filter_sublist _⟩
  intro q hq
  have h2 := List.of_mem_filter hq
  rw [Bool.not_eq_true'] at h2
  intro hmem
  have h3 := (contains_eq_true_iff matched q.number).2 hmem
  rw [h2] at h3
  cases h3

theorem c1_witness :
    (SubmissionPdf.mk "42" (strip_ws ("...Total Points...Questions assigned to the " ++
        "following page:1,2,and3...No questions assigned to the following page.").toList)).unmatched_questions
        [Question.mk "Q1" [1], Question.mk "Q2" [2], Question.mk "Q3" [3], Question.mk "Q4" [4]]
      = some ((spec_unmatched_diff
          [Question.mk "Q1" [1], Question.mk "Q2" [2], Question.mk "Q3" [3], Question.mk "Q4" [4]]
          [[1], [2], [3]]).map UnmatchedQuestion.mk)
    ∧ (spec_unmatched_diff
          [Question.mk "Q1" [1], Question.mk "Q2" [2], Question.mk "Q3" [3], Question.mk "Q4" [4]]
          [[1], [2], [3]]).length
        = [Question.mk "Q1" [1], Question.mk "Q2" [2], Question.mk "Q3" [3],
            Question.mk "Q4" [4]].length - ([[1], [2], [3]] : List (List Nat)).toFinset.card
    ∧ (∀ q ∈ spec_unmatched_diff
          [Question.mk "Q1" [1], Question.mk "Q2" [2], Question.mk "Q3" [3], Question.mk "Q4" [4]]
          [[1], [2], [3]], q.number ∉ ([[1], [2], [3]] : List (List Nat)))
    ∧ (spec_unmatched_diff
          [Question.mk "Q1" [1], Question.mk "Q2" [2], Question.mk "Q3" [3], Question.mk "Q4" [4]]
          [[1], [2], [3]]).Sublist
        [Question.mk "Q1" [1], Question.mk "Q2" [2], Question.mk "Q3" [3], Question.mk "Q4" [4]] :=
  c1_unmatched_diff _ _ _ (by decide) (by decide) (by decide)

/-- C5: given that `unmatched_questions` succeeds with diff `d`,
`SubmissionPdf::as_unmatched` returns `None` exactly when `d` is empty (a
fully matched submission produces no record), and otherwise returns `Some`
`UnmatchedSubmission` carrying the submission id and exactly `d`. -/
theorem c5_as_unmatched (pdf : SubmissionPdf) (all_questions : List Question)
    (d : List UnmatchedQuestion)
    (h : pdf.unmatched_questions all_questions = some d) :
    (pdf.as_unmatched all_questions = some none ↔ d = [])
    ∧ (d ≠ [] → pdf.as_unmatched all_questions
        = some (some (UnmatchedSubmission.mk pdf.submission_id d))) := by
  unfold SubmissionPdf.as_unmatched
  simp only [h]
  cases d with
  | nil => simp
  | cons u us => simp

theorem c5_witness :
    ((SubmissionPdf.mk "7" (strip_ws ("...Total Points...Questions assigned to the " ++
        "following page:1,2,and3...No questions assigned to the following page.").toList)).as_unmatched
        [Question.mk "Q1" [1], Question.mk "Q2" [2], Question.mk "Q3" [3], Question.mk "Q4" [4]]
        = some none
      ↔ [UnmatchedQuestion.mk (Question.mk "Q4" [4])] = [])
    ∧ ([UnmatchedQuestion.mk (Question.mk "Q4" [4])] ≠ [] →
        (SubmissionPdf.mk "7" (strip_ws ("...Total Points...Questions assigned to the " ++
          "following page:1,2,and3...No questions assigned to the following page.").toList)).as_unmatched
          [Question.mk "Q1" [1], Question.mk "Q2" [2], Question.mk "Q3" [3], Question.mk "Q4" [4]]
        = some (some (UnmatchedSubmission.mk "7" [UnmatchedQuestion.mk (Question.mk "Q4" [4])]))) :=
  c5_as_unmatched _ _ _ (by decide)

end Gradescope

namespace Gradescope

/-- C7: in the archive extraction loop, an entry whose decoded filename does
not end in ".pdf" is skipped and contributes no stream item at all, while a
filename-decode failure or an entry-read failure contributes exactly one
error item, with all remaining entries still read and emitted (the items of
the entries before and after it are unchanged). -/
theorem c7_extractor (xs ys : List ZipEntry) (e : ZipEntry) :
    (∀ f, e.filename = .ok f → (".pdf".toList.isSuffixOf f) = false →
      try_read_pdf_buf e = none
      ∧ submission_pdf_bufs (xs ++ e :: ys)
          = submission_pdf_bufs xs ++ submission_pdf_bufs ys)
    ∧ (∀ msg, e.filename = .error msg →
      submission_pdf_bufs (xs ++ e :: ys)
        = submission_pdf_bufs xs ++ .error msg :: submission_pdf_bufs ys)
    ∧ (∀ f msg, e.filename = .ok f → (".pdf".toList.isSuffixOf f) = true →
      e.data = .error msg →
      submission_pdf_bufs (xs ++ e :: ys)
        = submission_pdf_bufs xs ++ .error msg :: submission_pdf_bufs ys) := by
  refine ⟨?_, ?_, ?_⟩
  · intro f hf hsuf
    have hnone : try_read_pdf_buf e = none := by
      unfold try_read_pdf_buf entry_pdf_filename
      simp only [hf, hsuf]
      simp
    exact ⟨hnone, by
      unfold submission_pdf_bufs
      rw [List.filterMap_append]
      simp only [List.filterMap_cons, hnone]⟩
  · intro msg hf
    have hitem : try_read_pdf_buf e = some (.error msg) := by
      unfold try_read_pdf_buf entry_pdf_filename
      simp only [hf]
    unfold submission_pdf_bufs
    rw [List.filterMap_append]
    simp only [List.filterMap_cons, hitem]
  · intro f msg hf hsuf hd
    have hitem : try_read_pdf_buf e = some (.error msg) := by
      unfold try_read_pdf_buf entry_pdf_filename
      simp only [hf, hsuf, hd]
      simp
    unfold submission_pdf_bufs
    rw [List.filterMap_append]
    simp only [List.filterMap_cons, hitem]

theorem c7_witness :
    (try_read_pdf_buf (ZipEntry.mk (.ok "metadata.yml".toList) (.ok [1])) = none
      ∧ submission_pdf_bufs
          ([ZipEntry.mk (.ok "a.pdf".toList) (.ok [1])]
            ++ ZipEntry.mk (.ok "metadata.yml".toList) (.ok [1])
              :: [ZipEntry.mk (.ok "b.pdf".toList) (.ok [2])])
        = submission_pdf_bufs [ZipEntry.mk (.ok "a.pdf".toList) (.ok [1])]
          ++ submission_pdf_bufs [ZipEntry.mk (.ok "b.pdf".toList) (.ok [2])])
    ∧ submission_pdf_bufs
        ([ZipEntry.mk (.ok "a.pdf".toList) (.ok [1])]
          ++ ZipEntry.mk (.error "bad name") (.ok [1])
            :: [ZipEntry.mk (.ok "b.pdf".toList) (.ok [2])])
      = submission_pdf_bufs [ZipEntry.mk (.ok "a.pdf".toList) (.ok [1])]
        ++ .error "bad name" :: submission_pdf_bufs [ZipEntry.mk (.ok "b.pdf".toList) (.ok [2])] :=
  ⟨(c7_extractor [ZipEntry.mk (.ok "a.pdf".toList) (.ok [1])]
      [ZipEntry.mk (.ok "b.pdf".toList) (.ok [2])]
      (ZipEntry.mk (.ok "metadata.yml".toList) (.ok [1]))).1
        "metadata.yml".toList rfl (by decide),
    (c7_extractor [ZipEntry.mk (.ok "a.pdf".toList) (.ok [1])]
      [ZipEntry.mk (.ok "b.pdf".toList) (.ok [2])]
      (ZipEntry.mk (.error "bad name") (.ok [1]))).2.1 "bad name" rfl⟩

/-- C8: joining an `UnmatchedSubmission` against the roster yields exactly
one error item when its submission id is absent from the map (neither a
silent drop nor a fatal failure), and one success record per student when
the id maps to a list of student submitters. -/
theorem c8_roster_join (u : UnmatchedSubmission) (m : SubmissionToStudentMap) :
    (m.students u.id = none →
      u.submitters m = [Except.error "could not find students for submission"])
    ∧ (∀ ss, m.students u.id = some ss →
      u.submitters m = ss.map (fun s => Except.ok (NonmatchingSubmitter.mk s u))
      ∧ (u.submitters m).length = ss.length) := by
  constructor
  · intro h
    unfold UnmatchedSubmission.submitters
    simp only [h]
  · intro ss h
    constructor
    · unfold UnmatchedSubmission.submitters
      simp only [h]
    · unfold UnmatchedSubmission.submitters
      simp only [h]
      exact List.length_map _ _

theorem c8_witness :
    ((UnmatchedSubmission.mk "2" []).submitters
        (fun i => if i = "1"
          then some [StudentSubmitter.mk "Ada" "ada@example.edu",
            StudentSubmitter.mk "Max" "max@example.edu"]
          else none)
      = [Except.error "could not find students for submission"])
    ∧ ((UnmatchedSubmission.mk "1" []).submitters
        (fun i => if i = "1"
          then some [StudentSubmitter.mk "Ada" "ada@example.edu",
            StudentSubmitter.mk "Max" "max@example.edu"]
          else none)
      = [StudentSubmitter.mk "Ada" "ada@example.edu",
          StudentSubmitter.mk "Max" "max@example.edu"].map
            (fun s => Except.ok (NonmatchingSubmitter.mk s (UnmatchedSubmission.mk "1" [])))
      ∧ ((UnmatchedSubmission.mk "1" []).submitters
          (fun i => if i = "1"
            then some [StudentSubmitter.mk "Ada" "ada@example.edu",
              StudentSubmitter.mk "Max" "max@example.edu"]
            else none)).length
        = [StudentSubmitter.mk "Ada" "ada@example.edu",
            StudentSubmitter.mk "Max" "max@example.edu"].length) :=
  ⟨(c8_roster_join (UnmatchedSubmission.mk "2" []) _).1 (by decide),
    (c8_roster_join (UnmatchedSubmission.mk "1" []) _).2 _ (by decide)⟩

end Gradescope

namespace ExportSubmissions

/-- C9: the structured classifier marks a page as a student-submission page
exactly when it has no fonts or lacks the Gradescope-logo image, and a
post-assignment-summary page carrying both the logo and fonts is classified
as a question-summary page whose question number is parsed from the page's
first text token. -/
theorem c9_page_classifier (pdf : SubmissionPdf) (page : Page) :
    (pdf.is_student_submission_page page = true ↔
      (page.fonts = [] ∨ pdf.gradescope_logo_ref ∉ page.xobjects))
    ∧ (∀ first_text rest n, page.texts = first_text :: rest →
        pdf.gradescope_logo_ref ∈ page.xobjects →
        page.fonts ≠ [] →
        Gradescope.QuestionNumber.from_str (trimChars first_text) = some n →
        pdf.post_assignment_summary_page_kind page
          = Except.ok (PageKind.questionSummary n)) := by
  have hchar : pdf.is_student_submission_page page = true ↔
      (page.fonts = [] ∨ pdf.gradescope_logo_ref ∉ page.xobjects) := by
    unfold SubmissionPdf.is_student_submission_page SubmissionPdf.has_no_fonts
      SubmissionPdf.has_gradescope_logo
    rw [Bool.or_eq_true, List.isEmpty_iff, Bool.not_eq_true',
      ← Bool.not_eq_true (page.xobjects.contains pdf.gradescope_logo_ref)]
    rw [Gradescope.contains_eq_true_iff]
  refine ⟨hchar, ?_⟩
  intro first_text rest n htexts hlogo hfonts hn
  have hstu : pdf.is_student_submission_page page = false := by
    rw [← Bool.not_eq_true, hchar]
    push_neg
    exact ⟨hfonts, hlogo⟩
  unfold SubmissionPdf.post_assignment_summary_page_kind
  rw [hstu]
  simp only [Bool.false_eq_true, if_false]
  unfold SubmissionPdf.get_number_of_question_summary
  simp only [htexts, hn]

theorem c9_witness :
    ((SubmissionPdf.mk 5).is_student_submission_page (Page.mk ["F1"] [5] [['3']]) = true ↔
      ((["F1"] : List String) = [] ∨ (5 : Nat) ∉ ([5] : List Nat)))
    ∧ (SubmissionPdf.mk 5).post_assignment_summary_page_kind (Page.mk ["F1"] [5] [['3']])
        = Except.ok (PageKind.questionSummary [3]) :=
  ⟨(c9_page_classifier (SubmissionPdf.mk 5) (Page.mk ["F1"] [5] [['3']])).1,
    (c9_page_classifier (SubmissionPdf.mk 5) (Page.mk ["F1"] [5] [['3']])).2
      ['3'] [] [3] rfl (by decide) (by decide) (by decide)⟩

end ExportSubmissions
